/-
  Verification of the scan-orchestration program in src/main.py
  (vao-vulnexposedsecrets): a shallow embedding of its target resolution,
  tool-adapter dispatch, report consolidation and scheduling logic, with
  theorems settling the specification claims.

  Filesystem reads, directory checks and external-process outcomes are
  supplied by explicit environment records; the control flow of each
  Python function is translated branch by branch.
-/
import Mathlib

set_option maxHeartbeats 1000000

/-- JSON values as produced by Python's `json` module for the documents this
program handles: objects, arrays, strings, numbers, booleans, null.
Numbers are modelled as integers (no claim depends on float contents). -/
inductive JVal where
  | jnull : JVal
  | jbool : Bool → JVal
  | jnum : Int → JVal
  | jstr : String → JVal
  | jarr : List JVal → JVal
  | jobj : List (String × JVal) → JVal

/-- Content of one file on disk, as seen by `consolidate_reports`: either it
parses as JSON (`valid`) or `json.load` raises `JSONDecodeError` (`invalid`). -/
inductive FileData where
  | valid : JVal → FileData
  | invalid : FileData

/-- The filesystem as a partial map from filename to file content. -/
def CFS : Type := String → Option FileData

/-- Writing a file: `open(name, "w")` followed by `json.dump` replaces the
content at `name` and leaves every other file unchanged. -/
def CFS.write (fs : CFS) (name : String) (d : FileData) : CFS :=
  fun m => if m = name then some d else fs m

/-- Constant `SECRETS_REPORT_FILENAME` (src/main.py line 18). -/
def SECRETS_REPORT_FILENAME : String := "secrets_report.json"

/-- Constant `VULN_REPORT_FILENAME` (src/main.py line 19). -/
def VULN_REPORT_FILENAME : String := "vulnerability_report.json"

/-- Placeholder stored under `"secrets"` when the secrets report file is
absent (src/main.py line 179). -/
def secretsAbsentPlaceholder : JVal :=
  JVal.jobj [("status", JVal.jstr "No secrets scan performed or no secrets found.")]

/-- Placeholder stored under `"vulnerabilities"` when the vulnerability report
file is absent (src/main.py line 191). -/
def vulnAbsentPlaceholder : JVal :=
  JVal.jobj [("status", JVal.jstr "No vulnerability scans performed.")]

/-- Placeholder stored under `"vulnerabilities"` when the vulnerability report
file is present but fails to parse (src/main.py line 188). -/
def vulnDecodeFailurePlaceholder : JVal :=
  JVal.jobj [("error", JVal.jstr "Failed to decode vulnerability report.  Check logs for details.")]

/-- The `"secrets"` entry of the consolidated report as a function of the
secrets report file's content (src/main.py lines 175-179); the unparseable
case never reaches this point (see `consolidate_doc`). -/
def secretsEntryOf : Option FileData → JVal
  | some (FileData.valid j) => j
  | _ => secretsAbsentPlaceholder

/-- The `"vulnerabilities"` entry of the consolidated report as a function of
the vulnerability report file's content (src/main.py lines 181-191). -/
def vulnEntryOf : Option FileData → JVal
  | some (FileData.valid j) => j
  | some FileData.invalid => vulnDecodeFailurePlaceholder
  | none => vulnAbsentPlaceholder

/-- The consolidated document `consolidate_reports` builds from the contents of
the two raw report files, or `none` when building it raises past the inner
handlers. The secrets load (line 177) has no inner `try`, so an unparseable
secrets file raises `JSONDecodeError` into the outer `except` (line 202):
nothing is written. The vulnerabilities load (lines 184-188) catches
`JSONDecodeError` and substitutes the decode-failure placeholder. -/
def consolidate_doc (s v : Option FileData) : Option JVal :=
  match s with
  | some FileData.invalid => none
  | _ => some (JVal.jobj [("secrets", secretsEntryOf s), ("vulnerabilities", vulnEntryOf v)])

/-- `consolidate_reports(output_filename)` (src/main.py lines 169-203): reads
the two raw report files, builds the consolidated document, and writes it to
`output_filename`; when building raises (unparseable secrets file), the outer
handler logs and nothing is written. Returns the filesystem afterwards and the
document written (`none` when no write happened). -/
def consolidate_reports (fs : CFS) (output_filename : String) : CFS × Option JVal :=
  match consolidate_doc (fs SECRETS_REPORT_FILENAME) (fs VULN_REPORT_FILENAME) with
  | none => (fs, none)
  | some doc => (CFS.write fs output_filename (FileData.valid doc), some doc)

/-- Field lookup in a JSON object, as Python's `dict[key]` on the consolidated
document. -/
def JVal.getField : JVal → String → Option JVal
  | JVal.jobj fields, k => (fields.find? (fun p => p.1 = k)).map (fun p => p.2)
  | _, _ => none

example :
    consolidate_doc none none =
      some (JVal.jobj [("secrets", secretsAbsentPlaceholder),
                       ("vulnerabilities", vulnAbsentPlaceholder)]) := rfl

example : consolidate_doc (some FileData.invalid) none = none := rfl

example : secretsAbsentPlaceholder ≠ JVal.jobj [("status", JVal.jstr "not run")] := by
  simp [secretsAbsentPlaceholder]

/-- The three tool adapters. -/
inductive Adapter where
  | secretScan : Adapter
  | vulnScan : Adapter
  | tlsAudit : Adapter
deriving DecidableEq, Repr

/-- One execution of an external scanner binary: which adapter launched it and
the argument it was pointed at. -/
structure Exec where
  adapter : Adapter
  arg : String
deriving DecidableEq, Repr

/-- Environment supplying the outcomes of filesystem checks and external
processes during one `perform_scan` call: `os.path.isdir`, the
`is_git_repository` check (which never raises: it catches everything and
returns a Bool), whether `git clone` succeeds, whether `shutil.rmtree`
succeeds, and whether each scanner binary is installed (a missing binary
raises `FileNotFoundError` inside the adapter, which catches it).
Directory creation (`os.makedirs`, line 215) is taken to succeed; its failure
path is the same as a clone failure for every property proved here. -/
structure Env where
  isDir : String → Bool
  isGitRepo : String → Bool
  cloneOk : Bool
  rmtreeOk : Bool
  detectSecretsInstalled : Bool
  nucleiInstalled : Bool
  testsslInstalled : Bool

/-- The URL test `re.match(r'^(http|https)://', target)` used at
src/main.py lines 120, 211, 240, 241, 247: the regex matches exactly the
strings beginning with `http://` or `https://`. The check is expressed over
the character list of the string. -/
def is_url (target : String) : Bool :=
  "http://".data.isPrefixOf target.data || "https://".data.isPrefixOf target.data

/-- Output file `scan_secrets` designates for detect-secrets findings
(src/main.py lines 88 and 96). -/
def secret_scan_output_file : String := SECRETS_REPORT_FILENAME

/-- Output file `run_nuclei` passes to nuclei via `-o`
(src/main.py line 124). -/
def nuclei_output_file : String := VULN_REPORT_FILENAME

/-- Output file `run_testssl` passes to testssl.sh via `--jsonfile`
(src/main.py line 148). -/
def testssl_output_file : String := VULN_REPORT_FILENAME

/-- `scan_secrets(target)` (src/main.py lines 83-112): returns False only when
an exception is caught (notably `FileNotFoundError` for a missing binary);
a non-zero exit of the tool itself is logged and still returns True. Result:
(returned value, external executions performed). -/
def scan_secrets (env : Env) (target : String) : Bool × List Exec :=
  if env.detectSecretsInstalled then
    (true, [{ adapter := Adapter.secretScan, arg := target }])
  else
    (false, [])

/-- `run_nuclei(target)` (src/main.py lines 115-141): skips with False when the
target is not a URL (lines 120-122) before any invocation; otherwise invokes
nuclei, returning False only when an exception is caught. -/
def run_nuclei (env : Env) (target : String) : Bool × List Exec :=
  if ¬ is_url target then
    (false, [])
  else if env.nucleiInstalled then
    (true, [{ adapter := Adapter.vulnScan, arg := target }])
  else
    (false, [])

/-- `run_testssl(target)` (src/main.py lines 143-166): no URL guard of its own;
invokes testssl.sh, returning False only when an exception is caught. -/
def run_testssl (env : Env) (target : String) : Bool × List Exec :=
  if env.testsslInstalled then
    (true, [{ adapter := Adapter.tlsAudit, arg := target }])
  else
    (false, [])

/-- The default tool selection substituted when the caller passes none
(src/main.py lines 232-233; Python's `if not tools` also fires on an empty
list). -/
def default_tools : List String := ["detect-secrets", "nuclei", "testssl.sh"]

/-- The tool list actually iterated over: the caller's selection, or
`default_tools` when it is `None` or empty (`if not tools`, src/main.py
line 232). -/
def effective_tools (tools : Option (List String)) : List String :=
  match tools with
  | none => default_tools
  | some l => if l.isEmpty then default_tools else l

/-- Tool-dispatch phase of `perform_scan` (src/main.py lines 231-251), reached
only after resolution succeeded: returns the external executions performed and
the adapters recorded as skipped (the explicit skip logs at lines 244 and 250).
`target` is the original target string, `scan_target` the resolved path.
Adapter return values are discarded, exactly as in the source. -/
def run_tools (env : Env) (target scan_target : String) (tools : Option (List String)) :
    List Exec × List Adapter :=
  let ts : List String := effective_tools tools
  let e1 := if ts.contains "detect-secrets" then (scan_secrets env scan_target).2 else []
  let e2 := if ts.contains "nuclei" && (is_url target || env.isDir target) then
              (if is_url target then (run_nuclei env target).2 else []) else []
  let e3 := if ts.contains "testssl.sh" then
              (if is_url target then (run_testssl env target).2 else []) else []
  let s2 := if ts.contains "nuclei" && (is_url target || env.isDir target) && !is_url target then
              [Adapter.vulnScan] else []
  let s3 := if ts.contains "testssl.sh" && !is_url target then [Adapter.tlsAudit] else []
  (e1 ++ e2 ++ e3, s2 ++ s3)

/-- Observable outcome of one `perform_scan` call. -/
structure ScanResult where
  ok : Bool
  resolvedPath : Option String
  execs : List Exec
  skips : List Adapter
  tempCreated : Bool
  tempExistsAfter : Bool
deriving Repr

/-- `perform_scan(target, tools)` (src/main.py lines 205-267), branch by
branch. URL targets: `temp_dir = "temp_repo"` is created (reused if present)
and cloned into; a clone failure raises into the outer handler, returning
False before any adapter runs. Non-URL targets: must be an existing directory,
else False. Either way the resolved path must pass `is_git_repository`, else
False before any adapter runs. The `finally` block (lines 259-267) attempts
`shutil.rmtree(temp_dir)` whenever `temp_dir` was set and exists, catching and
logging a removal failure without changing the returned value; so after a URL
scan the directory still exists exactly when removal failed, and a non-URL
scan leaves any `temp_repo` directory as it was. -/
def perform_scan (env : Env) (target : String) (tools : Option (List String)) : ScanResult :=
  if is_url target then
    if env.cloneOk then
      if env.isGitRepo "temp_repo" then
        let r := run_tools env target "temp_repo" tools
        { ok := true, resolvedPath := some "temp_repo", execs := r.1, skips := r.2,
          tempCreated := true, tempExistsAfter := !env.rmtreeOk }
      else
        { ok := false, resolvedPath := some "temp_repo", execs := [], skips := [],
          tempCreated := true, tempExistsAfter := !env.rmtreeOk }
    else
      { ok := false, resolvedPath := none, execs := [], skips := [],
        tempCreated := true, tempExistsAfter := !env.rmtreeOk }
  else if env.isDir target then
    if env.isGitRepo target then
      let r := run_tools env target target tools
      { ok := true, resolvedPath := some target, execs := r.1, skips := r.2,
        tempCreated := false, tempExistsAfter := env.isDir "temp_repo" }
    else
      { ok := false, resolvedPath := some target, execs := [], skips := [],
        tempCreated := false, tempExistsAfter := env.isDir "temp_repo" }
  else
    { ok := false, resolvedPath := none, execs := [], skips := [],
      tempCreated := false, tempExistsAfter := env.isDir "temp_repo" }

/-- Target resolution succeeded: the target was classified (URL or existing
directory), the clone succeeded for URLs, and the git-repository check passed
on the resolved path. -/
def resolution_ok (env : Env) (target : String) : Bool :=
  if is_url target then env.cloneOk && env.isGitRepo "temp_repo"
  else env.isDir target && env.isGitRepo target

/-- Observable outcome of one `schedule_scan` call: orchestrations and
consolidations performed immediately (before any loop), whether a periodic job
was registered with the scheduling library, and whether the call reaches the
non-terminating `while True` polling loop. -/
structure SchedOutcome where
  immediateRuns : Nat
  immediateConsolidations : Nat
  jobRegistered : Bool
  entersLoop : Bool
deriving DecidableEq, Repr

/-- `schedule_scan(target, schedule_type, tools)` (src/main.py lines 269-296).
The branches are checked in source order: `daily`, `weekly`, `monthly`
register a periodic job with the external `schedule` library (registration is
modelled as succeeding) and then enter the `while True` polling loop
(lines 294-296), which has no exit; `once` calls `scheduled_job()` immediately
and returns without entering the loop; anything else logs an error and
returns. `scheduled_job` (lines 272-278) runs `perform_scan` and calls
`consolidate_reports` exactly when it returned True. -/
def schedule_scan (env : Env) (target : String) (schedule_type : String)
    (tools : Option (List String)) : SchedOutcome :=
  if schedule_type = "daily" then
    { immediateRuns := 0, immediateConsolidations := 0, jobRegistered := true, entersLoop := true }
  else if schedule_type = "weekly" then
    { immediateRuns := 0, immediateConsolidations := 0, jobRegistered := true, entersLoop := true }
  else if schedule_type = "monthly" then
    { immediateRuns := 0, immediateConsolidations := 0, jobRegistered := true, entersLoop := true }
  else if schedule_type = "once" then
    { immediateRuns := 1,
      immediateConsolidations := if (perform_scan env target tools).ok then 1 else 0,
      jobRegistered := false, entersLoop := false }
  else
    { immediateRuns := 0, immediateConsolidations := 0, jobRegistered := false, entersLoop := false }

theorem consolidate_doc_not_invalid (s v : Option FileData)
    (hs : s ≠ some FileData.invalid) :
    consolidate_doc s v =
      some (JVal.jobj [("secrets", secretsEntryOf s), ("vulnerabilities", vulnEntryOf v)]) := by
  cases s with
  | none => rfl
  | some d =>
    cases d with
    | valid j => rfl
    | invalid => exact absurd rfl hs

theorem consolidate_snd (fs : CFS) (out : String) :
    (consolidate_reports fs out).2 =
      consolidate_doc (fs SECRETS_REPORT_FILENAME) (fs VULN_REPORT_FILENAME) := by
  unfold consolidate_reports
  cases consolidate_doc (fs SECRETS_REPORT_FILENAME) (fs VULN_REPORT_FILENAME) <;> rfl

theorem consolidate_preserves (fs : CFS) (out n : String) (h : n ≠ out) :
    (consolidate_reports fs out).1 n = fs n := by
  unfold consolidate_reports
  cases consolidate_doc (fs SECRETS_REPORT_FILENAME) (fs VULN_REPORT_FILENAME) with
  | none => rfl
  | some doc => simp [CFS.write, h]

theorem consolidate_writes (fs : CFS) (out : String) (doc : JVal)
    (h : consolidate_doc (fs SECRETS_REPORT_FILENAME) (fs VULN_REPORT_FILENAME) = some doc) :
    (consolidate_reports fs out).1 out = some (FileData.valid doc) ∧
    (consolidate_reports fs out).2 = some doc := by
  unfold consolidate_reports
  rw [h]
  exact ⟨by simp [CFS.write], rfl⟩

/-- Filesystem holding only an unparseable secrets report. -/
def fsC1 : CFS := fun n => if n = SECRETS_REPORT_FILENAME then some FileData.invalid else none

/-- C1 counterexample: with the secrets raw file present but unparseable (and
no vulnerability file), `consolidate_reports` writes nothing at all — the
document built is `none` and the output path is still absent afterwards —
refuting the claim that an unparseable raw file of any category yields a
`{error: "decode failure"}` placeholder while the consolidated file is still
written. -/
theorem c1_secrets_decode_abort :
    (consolidate_reports fsC1 "consolidated_report.json").2 = none ∧
    (consolidate_reports fsC1 "consolidated_report.json").1 "consolidated_report.json" = none :=
  ⟨rfl, rfl⟩

/-- C1 (amended): only the vulnerability raw file has decode-failure
tolerance. When the vulnerability raw file is unparseable and the secrets raw
file is parseable or absent, consolidation completes: the written document
carries the decode-failure placeholder (with the source's message) under
`"vulnerabilities"`, and the output file holds that document. An unparseable
secrets raw file instead raises into the outer handler and nothing is
written. -/
theorem c1_amended_vuln_decode_placeholder (fs : CFS) (out : String)
    (hv : fs VULN_REPORT_FILENAME = some FileData.invalid)
    (hs : fs SECRETS_REPORT_FILENAME ≠ some FileData.invalid) :
    (consolidate_reports fs out).2 =
      some (JVal.jobj [("secrets", secretsEntryOf (fs SECRETS_REPORT_FILENAME)),
                       ("vulnerabilities", vulnDecodeFailurePlaceholder)]) ∧
    (consolidate_reports fs out).1 out =
      some (FileData.valid (JVal.jobj
        [("secrets", secretsEntryOf (fs SECRETS_REPORT_FILENAME)),
         ("vulnerabilities", vulnDecodeFailurePlaceholder)])) := by
  have hd : consolidate_doc (fs SECRETS_REPORT_FILENAME) (fs VULN_REPORT_FILENAME) =
      some (JVal.jobj [("secrets", secretsEntryOf (fs SECRETS_REPORT_FILENAME)),
                       ("vulnerabilities", vulnDecodeFailurePlaceholder)]) := by
    rw [consolidate_doc_not_invalid _ _ hs, hv]
    rfl
  obtain ⟨h1, h2⟩ := consolidate_writes fs out _ hd
  exact ⟨h2, h1⟩

/-- Filesystem holding only an unparseable vulnerability report. -/
def fsC1w : CFS := fun n => if n = VULN_REPORT_FILENAME then some FileData.invalid else none

/-- C1 witness: the amended theorem applied at a concrete filesystem holding
only an unparseable vulnerability report. -/
theorem c1_amended_witness :
    (consolidate_reports fsC1w "consolidated_report.json").2 =
      some (JVal.jobj [("secrets", secretsEntryOf (fsC1w SECRETS_REPORT_FILENAME)),
                       ("vulnerabilities", vulnDecodeFailurePlaceholder)]) ∧
    (consolidate_reports fsC1w "consolidated_report.json").1 "consolidated_report.json" =
      some (FileData.valid (JVal.jobj
        [("secrets", secretsEntryOf (fsC1w SECRETS_REPORT_FILENAME)),
         ("vulnerabilities", vulnDecodeFailurePlaceholder)])) :=
  c1_amended_vuln_decode_placeholder fsC1w "consolidated_report.json" rfl
    (by simp [fsC1w, SECRETS_REPORT_FILENAME, VULN_REPORT_FILENAME])

/-- The empty filesystem: no raw report files present. -/
def fsEmpty : CFS := fun _ => none

/-- C2 counterexample: with the secrets raw file absent, the consolidated
`"secrets"` entry is the descriptive placeholder of src/main.py line 179,
which differs from the literal `{status: "not run"}` the claim states. -/
theorem c2_not_literal_not_run :
    ((consolidate_reports fsEmpty "consolidated_report.json").2.bind
        (fun d => d.getField "secrets")) = some secretsAbsentPlaceholder ∧
    secretsAbsentPlaceholder ≠ JVal.jobj [("status", JVal.jstr "not run")] := by
  refine ⟨rfl, ?_⟩
  simp [secretsAbsentPlaceholder]

/-- C2 (amended): when a raw report file is absent its consolidated entry is a
`{status: ...}` placeholder carrying the source's descriptive message — the
line 179 string for `"secrets"`, the line 191 string for
`"vulnerabilities"` — not the literal `{status: "not run"}`. -/
theorem c2_amended_descriptive_placeholders (fs : CFS) (out : String)
    (hs : fs SECRETS_REPORT_FILENAME = none) :
    (consolidate_reports fs out).2 =
      some (JVal.jobj [("secrets", secretsAbsentPlaceholder),
                       ("vulnerabilities", vulnEntryOf (fs VULN_REPORT_FILENAME))]) ∧
    vulnEntryOf none = vulnAbsentPlaceholder := by
  refine ⟨?_, rfl⟩
  have hd := consolidate_doc_not_invalid (fs SECRETS_REPORT_FILENAME)
    (fs VULN_REPORT_FILENAME) (by simp [hs])
  rw [consolidate_snd fs out, hd, hs]
  rfl

/-- C2 witness: the amended theorem applied at the empty filesystem. -/
theorem c2_amended_witness :
    (consolidate_reports fsEmpty "consolidated_report.json").2 =
      some (JVal.jobj [("secrets", secretsAbsentPlaceholder),
                       ("vulnerabilities", vulnEntryOf (fsEmpty VULN_REPORT_FILENAME))]) ∧
    vulnEntryOf none = vulnAbsentPlaceholder :=
  c2_amended_descriptive_placeholders fsEmpty "consolidated_report.json" rfl

/-- Filesystem holding only a secrets report that parses to the empty
object. -/
def fsC7 : CFS :=
  fun n => if n = SECRETS_REPORT_FILENAME then some (FileData.valid (JVal.jobj [])) else none

/-- C7 counterexample: calling `consolidate_reports` with the output path equal
to the secrets raw filename overwrites that raw file — after one run the
secrets file holds the consolidated document instead of its original
content — so consolidation is not read-only on the raw files (nor idempotent)
for every output path. -/
theorem c7_output_path_clobbers_raw :
    (consolidate_reports fsC7 SECRETS_REPORT_FILENAME).1 SECRETS_REPORT_FILENAME =
      some (FileData.valid (JVal.jobj [("secrets", JVal.jobj []),
                                       ("vulnerabilities", vulnAbsentPlaceholder)])) ∧
    fsC7 SECRETS_REPORT_FILENAME = some (FileData.valid (JVal.jobj [])) ∧
    JVal.jobj [("secrets", JVal.jobj []), ("vulnerabilities", vulnAbsentPlaceholder)] ≠
      JVal.jobj [] := by
  refine ⟨rfl, rfl, ?_⟩
  simp

/-- C7 (amended): provided the output path differs from both raw report
filenames, consolidation is idempotent and read-only on its inputs: running it
twice in succession writes the same document both times, and neither run
changes either raw report file. -/
theorem c7_amended_idempotent_read_only (fs : CFS) (out : String)
    (h1 : out ≠ SECRETS_REPORT_FILENAME) (h2 : out ≠ VULN_REPORT_FILENAME) :
    (consolidate_reports (consolidate_reports fs out).1 out).2 =
      (consolidate_reports fs out).2 ∧
    (consolidate_reports fs out).1 SECRETS_REPORT_FILENAME = fs SECRETS_REPORT_FILENAME ∧
    (consolidate_reports fs out).1 VULN_REPORT_FILENAME = fs VULN_REPORT_FILENAME ∧
    (consolidate_reports (consolidate_reports fs out).1 out).1 SECRETS_REPORT_FILENAME =
      fs SECRETS_REPORT_FILENAME ∧
    (consolidate_reports (consolidate_reports fs out).1 out).1 VULN_REPORT_FILENAME =
      fs VULN_REPORT_FILENAME := by
  have hS1 := consolidate_preserves fs out SECRETS_REPORT_FILENAME (Ne.symm h1)
  have hV1 := consolidate_preserves fs out VULN_REPORT_FILENAME (Ne.symm h2)
  have hS2 := consolidate_preserves (consolidate_reports fs out).1 out
    SECRETS_REPORT_FILENAME (Ne.symm h1)
  have hV2 := consolidate_preserves (consolidate_reports fs out).1 out
    VULN_REPORT_FILENAME (Ne.symm h2)
  refine ⟨?_, hS1, hV1, hS2.trans hS1, hV2.trans hV1⟩
  rw [consolidate_snd, consolidate_snd, hS1, hV1]

/-- C7 witness: the amended theorem applied at a concrete filesystem and the
default output path. -/
theorem c7_amended_witness :
    (consolidate_reports (consolidate_reports fsC7 "consolidated_report.json").1
        "consolidated_report.json").2 =
      (consolidate_reports fsC7 "consolidated_report.json").2 ∧
    (consolidate_reports fsC7 "consolidated_report.json").1 SECRETS_REPORT_FILENAME =
      fsC7 SECRETS_REPORT_FILENAME ∧
    (consolidate_reports fsC7 "consolidated_report.json").1 VULN_REPORT_FILENAME =
      fsC7 VULN_REPORT_FILENAME ∧
    (consolidate_reports (consolidate_reports fsC7 "consolidated_report.json").1
        "consolidated_report.json").1 SECRETS_REPORT_FILENAME = fsC7 SECRETS_REPORT_FILENAME ∧
    (consolidate_reports (consolidate_reports fsC7 "consolidated_report.json").1
        "consolidated_report.json").1 VULN_REPORT_FILENAME = fsC7 VULN_REPORT_FILENAME :=
  c7_amended_idempotent_read_only fsC7 "consolidated_report.json"
    (by decide) (by decide)

/-- Concrete environment in which every check and external process succeeds. -/
def envAllOk : Env :=
  { isDir := fun _ => true, isGitRepo := fun _ => true, cloneOk := true, rmtreeOk := true,
    detectSecretsInstalled := true, nucleiInstalled := true, testsslInstalled := true }

/-- C3 counterexample: `run_nuclei` (src/main.py line 124) and `run_testssl`
(line 148) write their raw output to the same statically-named file
`vulnerability_report.json`, so the three adapter output files are not
pairwise distinct and a testssl.sh run can overwrite nuclei's output. -/
theorem c3_shared_output_file : nuclei_output_file = testssl_output_file := rfl

/-- C3 (amended): SecretScan's output file is distinct from the other two
adapters' output files, but VulnScan (nuclei) and TlsAudit (testssl.sh) share
the single file `vulnerability_report.json`, so within one scan of a URL
target the later testssl.sh invocation can overwrite nuclei's raw output. -/
theorem c3_amended_secret_file_distinct :
    secret_scan_output_file ≠ nuclei_output_file ∧
    secret_scan_output_file ≠ testssl_output_file ∧
    nuclei_output_file = testssl_output_file := by
  refine ⟨?_, ?_, rfl⟩ <;> decide

/-- C4: `perform_scan` returns True exactly when target resolution succeeded
(valid classification, successful clone for URLs, git-repository check), and
its executions are those of the tool-dispatch phase when resolution
succeeded and none at all otherwise; since `resolution_ok` mentions no
adapter-related field of the environment, adapter-level skips and failures
cannot change a True outcome. -/
theorem c4_return_iff_resolution (env : Env) (target : String)
    (tools : Option (List String)) :
    (perform_scan env target tools).ok = resolution_ok env target ∧
    (perform_scan env target tools).execs =
      (if resolution_ok env target = true then
        (run_tools env target (if is_url target = true then "temp_repo" else target) tools).1
      else []) := by
  cases hu : is_url target <;> cases hc : env.cloneOk <;>
    cases hg : env.isGitRepo "temp_repo" <;> cases hd : env.isDir target <;>
      cases hg2 : env.isGitRepo target <;>
        simp [perform_scan, resolution_ok, hu, hc, hg, hd, hg2]

/-- C4 witness: the characterization applied at a concrete environment and
remote-URL target. -/
theorem c4_witness :
    (perform_scan envAllOk "https://example.com/repo.git" none).ok =
      resolution_ok envAllOk "https://example.com/repo.git" ∧
    (perform_scan envAllOk "https://example.com/repo.git" none).execs =
      (if resolution_ok envAllOk "https://example.com/repo.git" = true then
        (run_tools envAllOk "https://example.com/repo.git"
          (if is_url "https://example.com/repo.git" = true then "temp_repo"
           else "https://example.com/repo.git") none).1
      else []) :=
  c4_return_iff_resolution envAllOk "https://example.com/repo.git" none

/-- C5: for a target that does not match the URL prefix (a local-directory
target), every external execution `perform_scan` performs belongs to the
SecretScan adapter, whatever tool set was requested; `run_nuclei` itself
refuses a non-URL target without executing anything; and under the default
tool selection the two URL-only adapters are recorded as skipped exactly when
the scan proceeded past resolution. -/
theorem c5_local_no_url_adapters (env : Env) (target : String)
    (tools : Option (List String)) (hu : is_url target = false) :
    ((perform_scan env target tools).execs.all
        (fun e => e.adapter == Adapter.secretScan)) = true ∧
    run_nuclei env target = (false, []) ∧
    (perform_scan env target tools).skips =
      (if resolution_ok env target = true then
        (if (effective_tools tools).contains "nuclei" && env.isDir target then
          [Adapter.vulnScan] else []) ++
        (if (effective_tools tools).contains "testssl.sh" then [Adapter.tlsAudit] else [])
      else []) := by
  refine ⟨?_, by simp [run_nuclei, hu], ?_⟩ <;>
    cases hd : env.isDir target <;> cases hg : env.isGitRepo target <;>
      cases hds : env.detectSecretsInstalled <;>
        simp [perform_scan, run_tools, resolution_ok, scan_secrets, hu, hd, hg, hds]

/-- C5 witness: the theorem applied at a concrete environment, a local
directory target and the default tool selection. -/
theorem c5_witness :
    ((perform_scan envAllOk "repo_dir" none).execs.all
        (fun e => e.adapter == Adapter.secretScan)) = true ∧
    run_nuclei envAllOk "repo_dir" = (false, []) ∧
    (perform_scan envAllOk "repo_dir" none).skips =
      (if resolution_ok envAllOk "repo_dir" = true then
        (if (effective_tools none).contains "nuclei" && envAllOk.isDir "repo_dir" then
          [Adapter.vulnScan] else []) ++
        (if (effective_tools none).contains "testssl.sh" then [Adapter.tlsAudit] else [])
      else []) :=
  c5_local_no_url_adapters envAllOk "repo_dir" none (by decide)

/-- Concrete environment in which only the workspace removal fails. -/
def envRmFail : Env :=
  { isDir := fun _ => true, isGitRepo := fun _ => true, cloneOk := true, rmtreeOk := false,
    detectSecretsInstalled := true, nucleiInstalled := true, testsslInstalled := true }

/-- C6 counterexample: a remote-URL scan in which `shutil.rmtree` fails leaves
the `temp_repo` workspace in existence after the scan completes, while the
scan still reports success — refuting the claim's unconditional nonexistence
of the workspace after every remote-URL scan. -/
theorem c6_workspace_survives_rmtree_failure :
    (perform_scan envRmFail "https://example.com/repo.git" none).ok = true ∧
    (perform_scan envRmFail "https://example.com/repo.git" none).tempExistsAfter = true :=
  ⟨rfl, rfl⟩

/-- C6 (amended): for every remote-URL scan the workspace removal is attempted
unconditionally — whether the clone produced a valid path or failed; when the
removal succeeds the workspace no longer exists after the scan, and a removal
failure changes nothing about the scan's reported outcome — it only leaves
the directory in existence. -/
theorem c6_amended_cleanup (env : Env) (target : String) (tools : Option (List String))
    (hu : is_url target = true) (hr : env.rmtreeOk = true) :
    (perform_scan env target tools).tempCreated = true ∧
    (perform_scan env target tools).tempExistsAfter = false ∧
    (perform_scan { env with rmtreeOk := false } target tools).ok =
      (perform_scan env target tools).ok ∧
    (perform_scan { env with rmtreeOk := false } target tools).tempExistsAfter = true := by
  cases hc : env.cloneOk <;> cases hg : env.isGitRepo "temp_repo" <;>
    simp [perform_scan, run_tools, hu, hr, hc, hg]

/-- C6 witness: the amended theorem applied at a concrete all-succeeding
environment and remote-URL target. -/
theorem c6_amended_witness :
    (perform_scan envAllOk "https://example.com/repo.git" none).tempCreated = true ∧
    (perform_scan envAllOk "https://example.com/repo.git" none).tempExistsAfter = false ∧
    (perform_scan { envAllOk with rmtreeOk := false } "https://example.com/repo.git" none).ok =
      (perform_scan envAllOk "https://example.com/repo.git" none).ok ∧
    (perform_scan { envAllOk with rmtreeOk := false }
        "https://example.com/repo.git" none).tempExistsAfter = true :=
  c6_amended_cleanup envAllOk "https://example.com/repo.git" none (by decide) rfl

/-- C8: a target string that does not match the URL scheme prefix, is an
existing directory, and passes the git-repository check resolves to itself:
the scan succeeds, the resolved path is the target string, and no ephemeral
workspace is created (no clone occurs). -/
theorem c8_local_git_target (env : Env) (target : String) (tools : Option (List String))
    (hu : is_url target = false) (hd : env.isDir target = true)
    (hg : env.isGitRepo target = true) :
    (perform_scan env target tools).ok = true ∧
    (perform_scan env target tools).resolvedPath = some target ∧
    (perform_scan env target tools).tempCreated = false := by
  simp [perform_scan, hu, hd, hg]

/-- C8 witness: the theorem applied at a concrete environment and local
directory target. -/
theorem c8_witness :
    (perform_scan envAllOk "repo_dir" none).ok = true ∧
    (perform_scan envAllOk "repo_dir" none).resolvedPath = some "repo_dir" ∧
    (perform_scan envAllOk "repo_dir" none).tempCreated = false :=
  c8_local_git_target envAllOk "repo_dir" none (by decide) rfl rfl

/-- Concrete environment in which the clone and the workspace removal fail. -/
def envCloneRmFail : Env :=
  { isDir := fun _ => true, isGitRepo := fun _ => true, cloneOk := false, rmtreeOk := false,
    detectSecretsInstalled := true, nucleiInstalled := true, testsslInstalled := true }

/-- C10 counterexample: a remote-URL scan whose clone fails and whose
`shutil.rmtree` also fails leaves the `temp_repo` directory — with whatever
pre-existing content it held — in existence after the scan, refuting the
claim's unconditional recursive deletion of that path. -/
theorem c10_temp_repo_survives :
    (perform_scan envCloneRmFail "http://example.com/repo.git" none).tempCreated = true ∧
    (perform_scan envCloneRmFail "http://example.com/repo.git" none).tempExistsAfter = true :=
  ⟨rfl, rfl⟩

/-- C10 (amended): every remote-URL scan materializes the clone at the fixed
relative path `temp_repo` (reusing the directory if it already exists, via
`os.makedirs(..., exist_ok=True)`) and attempts recursive deletion of that
path when the scan ends; when the removal succeeds the path — including any
pre-existing content, since the deletion is recursive and unconditional on
who created the content — no longer exists. -/
theorem c10_amended_fixed_workspace (env : Env) (target : String)
    (tools : Option (List String)) (hu : is_url target = true)
    (hr : env.rmtreeOk = true) :
    (perform_scan env target tools).tempCreated = true ∧
    (perform_scan env target tools).resolvedPath =
      (if env.cloneOk = true then some "temp_repo" else none) ∧
    (perform_scan env target tools).tempExistsAfter = false := by
  cases hc : env.cloneOk <;> cases hg : env.isGitRepo "temp_repo" <;>
    simp [perform_scan, run_tools, hu, hr, hc, hg]

/-- C10 witness: the amended theorem applied at a concrete environment and
remote-URL target. -/
theorem c10_amended_witness :
    (perform_scan envAllOk "http://example.com/repo.git" none).tempCreated = true ∧
    (perform_scan envAllOk "http://example.com/repo.git" none).resolvedPath =
      (if envAllOk.cloneOk = true then some "temp_repo" else none) ∧
    (perform_scan envAllOk "http://example.com/repo.git" none).tempExistsAfter = false :=
  c10_amended_fixed_workspace envAllOk "http://example.com/repo.git" none (by decide) rfl

/-- C9: with cadence `once` exactly one orchestration runs immediately, no
periodic job is registered, the polling loop is never entered, and the
consolidator runs in that firing exactly when the orchestration succeeded;
with cadence `daily`, `weekly` or `monthly` nothing runs immediately, a
periodic job is registered and the call enters the non-terminating polling
loop. -/
theorem c9_cadences (env : Env) (target : String) (tools : Option (List String)) :
    (schedule_scan env target "once" tools).immediateRuns = 1 ∧
    (schedule_scan env target "once" tools).jobRegistered = false ∧
    (schedule_scan env target "once" tools).entersLoop = false ∧
    ((schedule_scan env target "once" tools).immediateConsolidations = 1 ↔
      (perform_scan env target tools).ok = true) ∧
    schedule_scan env target "daily" tools =
      { immediateRuns := 0, immediateConsolidations := 0, jobRegistered := true,
        entersLoop := true } ∧
    schedule_scan env target "weekly" tools =
      { immediateRuns := 0, immediateConsolidations := 0, jobRegistered := true,
        entersLoop := true } ∧
    schedule_scan env target "monthly" tools =
      { immediateRuns := 0, immediateConsolidations := 0, jobRegistered := true,
        entersLoop := true } := by
  cases h : (perform_scan env target tools).ok <;> simp [schedule_scan, h]

/-- C9 witness: the cadence characterization applied at a concrete environment
and target. -/
theorem c9_witness :
    (schedule_scan envAllOk "repo_dir" "once" none).immediateRuns = 1 ∧
    (schedule_scan envAllOk "repo_dir" "once" none).jobRegistered = false ∧
    (schedule_scan envAllOk "repo_dir" "once" none).entersLoop = false ∧
    ((schedule_scan envAllOk "repo_dir" "once" none).immediateConsolidations = 1 ↔
      (perform_scan envAllOk "repo_dir" none).ok = true) ∧
    schedule_scan envAllOk "repo_dir" "daily" none =
      { immediateRuns := 0, immediateConsolidations := 0, jobRegistered := true,
        entersLoop := true } ∧
    schedule_scan envAllOk "repo_dir" "weekly" none =
      { immediateRuns := 0, immediateConsolidations := 0, jobRegistered := true,
        entersLoop := true } ∧
    schedule_scan envAllOk "repo_dir" "monthly" none =
      { immediateRuns := 0, immediateConsolidations := 0, jobRegistered := true,
        entersLoop := true } :=
  c9_cadences envAllOk "repo_dir" none
